import Mathlib

/-!
Shallow embedding of the Antigravity Unity Bridge client
(`unity_bridge.py`): the color normalizer `parse_color`, the primitive
template registry `PRIMITIVES` with `create_primitive`, the server
locator `discover_server`, and the command dispatchers
`send_get_request` / `send_post_request`.

Python strings are embedded as `List Char`, numeric channel values as
`ℚ` (the float arithmetic of the source is division of small integers
by 255 and decimal literals; every claim about channel values carries a
1/255 tolerance, far above any float rounding, so rational arithmetic
is a faithful model).  Network effects are passed in explicitly as
transport oracles, and the mutable module globals `UNITY_BASE_URL` /
`UNITY_SERVER_PORT` become an explicit state record threaded through
the operations.
-/

namespace UnityBridge

/-! ## Color normalizer -/

/-- RGB triple with channels in ℚ (source: Python float triple). -/
abbrev Rgb := ℚ × ℚ × ℚ

/-- Python `str.strip()` whitespace test, ASCII range: space (32) and
the control characters 9..13 (tab, newline, vertical tab, form feed,
carriage return). -/
def pyIsSpace (c : Char) : Bool :=
  decide (c.toNat = 32 ∨ (9 ≤ c.toNat ∧ c.toNat ≤ 13))

/-- Python `str.strip()`: drop whitespace from both ends. -/
def pyStrip (s : List Char) : List Char :=
  ((s.dropWhile pyIsSpace).reverse.dropWhile pyIsSpace).reverse

/-- Python `str.lower()` restricted to the ASCII letters that occur in
the color table keys. -/
def pyLower (s : List Char) : List Char :=
  s.map Char.toLower

/-- Value of a single hexadecimal digit: `0`-`9` (48..57), `a`-`f`
(97..102), `A`-`F` (65..70); anything else is not a hex digit. -/
def hexVal? (c : Char) : Option Nat :=
  if 48 ≤ c.toNat ∧ c.toNat ≤ 57 then some (c.toNat - 48)
  else if 97 ≤ c.toNat ∧ c.toNat ≤ 102 then some (c.toNat - 87)
  else if 65 ≤ c.toNat ∧ c.toNat ≤ 70 then some (c.toNat - 55)
  else none

/-- Python `int(s, 16)` applied to a two-character slice of hex
digits, as done by `parse_color` on `color_str[0:2]` etc. -/
def intHex2? (a b : Char) : Option Nat :=
  match hexVal? a, hexVal? b with
  | some x, some y => some (16 * x + y)
  | _, _ => none

/-- First `COLOR_PRESETS` table of `unity_bridge.py` (lines 110-132,
21 entries).  At runtime this binding is overwritten by the second
assignment further down the module, so `parse_color` never sees it;
it is kept here to document the divergence. -/
def COLOR_PRESETS_initial : List (List Char × Rgb) :=
  [("white".data, (1, 1, 1)),
   ("black".data, (0, 0, 0)),
   ("red".data, (1, 0, 0)),
   ("green".data, (0, 1, 0)),
   ("blue".data, (0, 0, 1)),
   ("yellow".data, (1, 1, 0)),
   ("cyan".data, (0, 1, 1)),
   ("magenta".data, (1, 0, 1)),
   ("gray".data, (0.5, 0.5, 0.5)),
   ("grey".data, (0.5, 0.5, 0.5)),
   ("orange".data, (1, 0.5, 0)),
   ("purple".data, (0.5, 0, 1)),
   ("pink".data, (1, 0.75, 0.8)),
   ("brown".data, (0.6, 0.3, 0)),
   ("lime".data, (0.5, 1, 0)),
   ("navy".data, (0, 0, 0.5)),
   ("teal".data, (0, 0.5, 0.5)),
   ("maroon".data, (0.5, 0, 0)),
   ("olive".data, (0.5, 0.5, 0)),
   ("silver".data, (0.75, 0.75, 0.75)),
   ("gold".data, (1, 0.84, 0))]

/-- Second `COLOR_PRESETS` assignment of `unity_bridge.py`
(lines 682-695, 12 entries).  Because the module executes top to
bottom, this assignment replaces the 21-entry table above and is the
table in effect whenever `parse_color` runs. -/
def COLOR_PRESETS : List (List Char × Rgb) :=
  [("white".data, (1, 1, 1)),
   ("black".data, (0, 0, 0)),
   ("red".data, (1, 0, 0)),
   ("green".data, (0, 1, 0)),
   ("blue".data, (0, 0, 1)),
   ("yellow".data, (1, 1, 0)),
   ("cyan".data, (0, 1, 1)),
   ("magenta".data, (1, 0, 1)),
   ("gray".data, (0.5, 0.5, 0.5)),
   ("grey".data, (0.5, 0.5, 0.5)),
   ("orange".data, (1, 0.5, 0)),
   ("purple".data, (0.5, 0, 1))]

/-- Input shapes accepted by `parse_color`: `None`, a dict with
optional `r`/`g`/`b` keys, a tuple/list of numbers, or a string. -/
inductive ColorInput where
  | null
  | dict (r g b : Option ℚ)
  | rgb (xs : List ℚ)
  | str (s : List Char)

/-- The six-hex-character branch of `parse_color`: when the string has
exactly 6 characters, decode the three two-character groups as hex
bytes and divide by 255; a failed decode (or wrong length) falls
through. -/
def parseHex6 : List Char → Option Rgb
  | [c0, c1, c2, c3, c4, c5] =>
    match intHex2? c0 c1, intHex2? c2 c3, intHex2? c4 c5 with
    | some r, some g, some b => some ((r : ℚ) / 255, (g : ℚ) / 255, (b : ℚ) / 255)
    | _, _, _ => none
  | _ => none

/-- The three-hex-character branch of `parse_color`: each character is
duplicated to form a byte pair (`int(c*2, 16)`), then divided by
255. -/
def parseHex3 : List Char → Option Rgb
  | [c0, c1, c2] =>
    match intHex2? c0 c0, intHex2? c1 c1, intHex2? c2 c2 with
    | some r, some g, some b => some ((r : ℚ) / 255, (g : ℚ) / 255, (b : ℚ) / 255)
    | _, _, _ => none
  | _ => none

/-- Embedding of `parse_color` (unity_bridge.py lines 134-189):
dict input takes `r`/`g`/`b` with default 0; a sequence of length ≥ 3
takes its first three members; a string is stripped, an optional
leading hash sign removed, then tried as 6-digit hex, 3-digit
shorthand hex, and finally as a case-insensitive named lookup in the
`COLOR_PRESETS` table that is live at call time (the 12-entry second
assignment). -/
def parse_color : ColorInput → Option Rgb
  | .null => none
  | .dict r g b => some (r.getD 0, g.getD 0, b.getD 0)
  | .rgb xs =>
    if 3 ≤ xs.length then some (xs.getD 0 0, xs.getD 1 0, xs.getD 2 0) else none
  | .str s0 =>
    let s1 := pyStrip s0
    let s := if s1.head? = some '#' then s1.tail else s1
    match parseHex6 s with
    | some c => some c
    | none =>
      match parseHex3 s with
      | some c => some c
      | none =>
        match List.lookup (pyLower s) COLOR_PRESETS with
        | some c => some c
        | none => none

end UnityBridge

namespace UnityBridge

/-! ## Facts about the color normalizer -/

lemma hexVal_not_space {c : Char} {v : Nat} (h : hexVal? c = some v) :
    pyIsSpace c = false := by
  simp only [pyIsSpace, decide_eq_false_iff_not]
  intro hsp
  have hnone : hexVal? c = none := by
    unfold hexVal?
    rw [if_neg (by omega), if_neg (by omega), if_neg (by omega)]
  rw [hnone] at h
  cases h

lemma hexVal_ne_hash {c : Char} {v : Nat} (h : hexVal? c = some v) : c ≠ '#' := by
  intro hc
  rw [hc, (by decide : hexVal? '#' = none)] at h
  cases h

lemma dropWhile_space_eq_self {l : List Char} (h : ∀ c ∈ l, pyIsSpace c = false) :
    l.dropWhile pyIsSpace = l := by
  cases l with
  | nil => rfl
  | cons a t => simp [List.dropWhile_cons, h a (List.mem_cons_self a t)]

lemma pyStrip_eq_self {l : List Char} (h : ∀ c ∈ l, pyIsSpace c = false) :
    pyStrip l = l := by
  unfold pyStrip
  rw [dropWhile_space_eq_self h,
    dropWhile_space_eq_self (fun c hc => h c (List.mem_reverse.mp hc)),
    List.reverse_reverse]

lemma parse_color_hex6 {a b c d e f : Char} {va vb vc vd ve vf : Nat}
    (ha : hexVal? a = some va) (hb : hexVal? b = some vb) (hc : hexVal? c = some vc)
    (hd : hexVal? d = some vd) (he : hexVal? e = some ve) (hf : hexVal? f = some vf) :
    parse_color (.str [a, b, c, d, e, f])
      = some (((16 * va + vb : ℕ) : ℚ) / 255, ((16 * vc + vd : ℕ) : ℚ) / 255,
          ((16 * ve + vf : ℕ) : ℚ) / 255) := by
  have hs : pyStrip [a, b, c, d, e, f] = [a, b, c, d, e, f] := pyStrip_eq_self (by
    intro x hx
    simp only [List.mem_cons, List.not_mem_nil, or_false] at hx
    rcases hx with rfl | rfl | rfl | rfl | rfl | rfl
    exacts [hexVal_not_space ha, hexVal_not_space hb, hexVal_not_space hc,
      hexVal_not_space hd, hexVal_not_space he, hexVal_not_space hf])
  have hna : a ≠ '#' := hexVal_ne_hash ha
  simp [parse_color, hs, hna, parseHex6, intHex2?, ha, hb, hc, hd, he, hf]

lemma parse_color_hash_hex6 {a b c d e f : Char} {va vb vc vd ve vf : Nat}
    (ha : hexVal? a = some va) (hb : hexVal? b = some vb) (hc : hexVal? c = some vc)
    (hd : hexVal? d = some vd) (he : hexVal? e = some ve) (hf : hexVal? f = some vf) :
    parse_color (.str ('#' :: [a, b, c, d, e, f]))
      = some (((16 * va + vb : ℕ) : ℚ) / 255, ((16 * vc + vd : ℕ) : ℚ) / 255,
          ((16 * ve + vf : ℕ) : ℚ) / 255) := by
  have hs : pyStrip ('#' :: [a, b, c, d, e, f]) = '#' :: [a, b, c, d, e, f] :=
    pyStrip_eq_self (by
      intro x hx
      simp only [List.mem_cons, List.not_mem_nil, or_false] at hx
      rcases hx with rfl | rfl | rfl | rfl | rfl | rfl | rfl
      exacts [by decide, hexVal_not_space ha, hexVal_not_space hb, hexVal_not_space hc,
        hexVal_not_space hd, hexVal_not_space he, hexVal_not_space hf])
  simp [parse_color, hs, parseHex6, intHex2?, ha, hb, hc, hd, he, hf]

lemma parse_color_hex3 {a b c : Char} {va vb vc : Nat}
    (ha : hexVal? a = some va) (hb : hexVal? b = some vb) (hc : hexVal? c = some vc) :
    parse_color (.str [a, b, c])
      = some (((16 * va + va : ℕ) : ℚ) / 255, ((16 * vb + vb : ℕ) : ℚ) / 255,
          ((16 * vc + vc : ℕ) : ℚ) / 255) := by
  have hs : pyStrip [a, b, c] = [a, b, c] := pyStrip_eq_self (by
    intro x hx
    simp only [List.mem_cons, List.not_mem_nil, or_false] at hx
    rcases hx with rfl | rfl | rfl
    exacts [hexVal_not_space ha, hexVal_not_space hb, hexVal_not_space hc])
  have hna : a ≠ '#' := hexVal_ne_hash ha
  have h6 : parseHex6 [a, b, c] = none := rfl
  simp [parse_color, hs, hna, h6, parseHex3, intHex2?, ha, hb, hc]

lemma parse_color_hash_hex3 {a b c : Char} {va vb vc : Nat}
    (ha : hexVal? a = some va) (hb : hexVal? b = some vb) (hc : hexVal? c = some vc) :
    parse_color (.str ('#' :: [a, b, c]))
      = some (((16 * va + va : ℕ) : ℚ) / 255, ((16 * vb + vb : ℕ) : ℚ) / 255,
          ((16 * vc + vc : ℕ) : ℚ) / 255) := by
  have hs : pyStrip ('#' :: [a, b, c]) = '#' :: [a, b, c] := pyStrip_eq_self (by
    intro x hx
    simp only [List.mem_cons, List.not_mem_nil, or_false] at hx
    rcases hx with rfl | rfl | rfl | rfl
    exacts [by decide, hexVal_not_space ha, hexVal_not_space hb, hexVal_not_space hc])
  have h6 : parseHex6 [a, b, c] = none := rfl
  simp [parse_color, hs, h6, parseHex3, intHex2?, ha, hb, hc]

/-- Claim C1 (status: code_bug).  The spec's 21-entry named-color table is
the first `COLOR_PRESETS` assignment, but the second assignment near the
end of the module (12 entries, "moved here for module-level access")
overwrites it before any call can run, so at runtime `parse_color`
cannot resolve pink (nor brown, lime, navy, teal, maroon, olive,
silver, gold) even though the dead first table maps pink to
(1, 0.75, 0.8).  Case-insensitive lookup does hold for the surviving
names: parse_color "RED" = parse_color "red" = (1, 0, 0). -/
theorem parse_color_pink_dropped_at_runtime :
    parse_color (.str "pink".data) = none
    ∧ List.lookup "pink".data COLOR_PRESETS = none
    ∧ List.lookup "pink".data COLOR_PRESETS_initial = some (1, 0.75, 0.8)
    ∧ parse_color (.str "RED".data) = some (1, 0, 0)
    ∧ parse_color (.str "red".data) = some (1, 0, 0)
    ∧ parse_color (.str "Pink".data) = none := by
  refine ⟨by decide, by decide, ?_, by decide, by decide, by decide⟩
  norm_num [COLOR_PRESETS_initial, List.lookup]
  rfl

/-- Claim C7 (confirmed).  Every string of exactly 6 hexadecimal
characters, with or without a leading hash sign, is decoded by
`parse_color` as three two-character hex bytes, each divided by 255
(hence trivially within 1/255 of the decoded value); in particular
"#FF8000" yields (1.0, 0.502, 0.0) within 1/255 per channel. -/
theorem parse_color_hex6_spec :
    (∀ a b c d e f : Char, ∀ va vb vc vd ve vf : Nat,
      hexVal? a = some va → hexVal? b = some vb → hexVal? c = some vc →
      hexVal? d = some vd → hexVal? e = some ve → hexVal? f = some vf →
      parse_color (.str [a, b, c, d, e, f])
          = some (((16 * va + vb : ℕ) : ℚ) / 255, ((16 * vc + vd : ℕ) : ℚ) / 255,
              ((16 * ve + vf : ℕ) : ℚ) / 255)
        ∧ parse_color (.str ('#' :: [a, b, c, d, e, f]))
          = some (((16 * va + vb : ℕ) : ℚ) / 255, ((16 * vc + vd : ℕ) : ℚ) / 255,
              ((16 * ve + vf : ℕ) : ℚ) / 255))
    ∧ (∃ r g b : ℚ, parse_color (.str "#FF8000".data) = some (r, g, b)
        ∧ |r - 1| ≤ 1 / 255 ∧ |g - 0.502| ≤ 1 / 255 ∧ |b - 0| ≤ 1 / 255) := by
  constructor
  · intro a b c d e f va vb vc vd ve vf ha hb hc hd he hf
    exact ⟨parse_color_hex6 ha hb hc hd he hf, parse_color_hash_hex6 ha hb hc hd he hf⟩
  · refine ⟨1, 128 / 255, 0, ?_, by norm_num, by norm_num [abs_le], by norm_num⟩
    have h := @parse_color_hash_hex6 'F' 'F' '8' '0' '0' '0' 15 15 8 0 0 0
      (by decide) (by decide) (by decide) (by decide) (by decide) (by decide)
    rw [show ("#FF8000".data) = '#' :: ['F', 'F', '8', '0', '0', '0'] from by decide, h]
    norm_num

/-- Witness for C7 at the concrete input "FF8000" (no leading hash). -/
theorem parse_color_hex6_spec_witness :
    parse_color (.str ['F', 'F', '8', '0', '0', '0'])
      = some (((16 * 15 + 15 : ℕ) : ℚ) / 255, ((16 * 8 + 0 : ℕ) : ℚ) / 255,
          ((16 * 0 + 0 : ℕ) : ℚ) / 255) :=
  (parse_color_hex6_spec.1 'F' 'F' '8' '0' '0' '0' 15 15 8 0 0 0 (by decide) (by decide)
    (by decide) (by decide) (by decide) (by decide)).1

/-- Claim C8 (confirmed).  For every 3-hex-character shorthand, with or
without a leading hash sign, `parse_color` agrees exactly (hence within
any 1/255 tolerance) with the 6-character string obtained by
duplicating each character; in particular "#F80" and "#FF8800" parse
identically. -/
theorem parse_color_hex3_shorthand_spec :
    (∀ a b c : Char, ∀ va vb vc : Nat,
      hexVal? a = some va → hexVal? b = some vb → hexVal? c = some vc →
      parse_color (.str [a, b, c]) = parse_color (.str [a, a, b, b, c, c])
        ∧ parse_color (.str ('#' :: [a, b, c]))
          = parse_color (.str ('#' :: [a, a, b, b, c, c])))
    ∧ parse_color (.str "#F80".data) = parse_color (.str "#FF8800".data) := by
  constructor
  · intro a b c va vb vc ha hb hc
    constructor
    · rw [parse_color_hex3 ha hb hc, parse_color_hex6 ha ha hb hb hc hc]
    · rw [parse_color_hash_hex3 ha hb hc, parse_color_hash_hex6 ha ha hb hb hc hc]
  · rw [show ("#F80".data) = '#' :: ['F', '8', '0'] from by decide,
      show ("#FF8800".data) = '#' :: ['F', 'F', '8', '8', '0', '0'] from by decide,
      @parse_color_hash_hex3 'F' '8' '0' 15 8 0 (by decide) (by decide) (by decide),
      @parse_color_hash_hex6 'F' 'F' '8' '8' '0' '0' 15 15 8 8 0 0
        (by decide) (by decide) (by decide) (by decide) (by decide) (by decide)]

/-- Witness for C8 at the concrete shorthand "F80" (no leading hash). -/
theorem parse_color_hex3_shorthand_spec_witness :
    parse_color (.str ['F', '8', '0']) = parse_color (.str ['F', 'F', '8', '8', '0', '0']) :=
  (parse_color_hex3_shorthand_spec.1 'F' '8' '0' 15 8 0 (by decide) (by decide)
    (by decide)).1

end UnityBridge

namespace UnityBridge

/-! ## Primitive template registry -/

/-- One registry entry: the ordered component list and the description
string of a primitive template. -/
abbrev PrimitiveTemplate := List String × String

/-- The `PRIMITIVES` registry of `unity_bridge.py` (lines 66-107):
kind name to (components, description). -/
def PRIMITIVES : List (String × PrimitiveTemplate) :=
  [("cube", (["MeshFilter", "MeshRenderer", "BoxCollider"],
      "3D Cube with mesh and box collider")),
   ("sphere", (["MeshFilter", "MeshRenderer", "SphereCollider"],
      "3D Sphere with mesh and sphere collider")),
   ("plane", (["MeshFilter", "MeshRenderer", "MeshCollider"],
      "Flat plane with mesh collider")),
   ("cylinder", (["MeshFilter", "MeshRenderer", "CapsuleCollider"],
      "Cylinder with capsule collider")),
   ("capsule", (["MeshFilter", "MeshRenderer", "CapsuleCollider"],
      "Capsule with collider")),
   ("quad", (["MeshFilter", "MeshRenderer"], "2D Quad (flat square)")),
   ("empty", ([], "Empty GameObject (container)")),
   ("light", (["Light"], "Light source")),
   ("camera", (["Camera", "AudioListener"], "Camera with audio listener")),
   ("canvas", (["Canvas", "CanvasScaler", "GraphicRaycaster"], "UI Canvas"))]

/-- Request document built by `create_primitive` and posted to
`/unity/scene/create`: name, position, scale, component list and an
optional RGBA color. -/
structure CreateData where
  name : String
  position : ℚ × ℚ × ℚ
  scale : ℚ × ℚ × ℚ
  components : List String
  color : Option (ℚ × ℚ × ℚ × ℚ)
deriving DecidableEq

/-- Embedding of `create_primitive` (unity_bridge.py lines 291-333).
The Python function reads the module-level `PRIMITIVES` dict; here the
registry is passed explicitly and returned alongside the result so
that non-mutation of the templates is part of the statement: the
source copies the template's component list
(`template["components"].copy()`) before appending, so the registry
entry itself is left untouched.  An unknown primitive type yields no
request.  When `color_r` is given, a missing `color_g` or `color_b`
defaults to `color_r` and alpha is fixed at 1.0.  The built document
is then handed to `send_post_request`, which is modelled separately. -/
def create_primitive (registry : List (String × PrimitiveTemplate))
    (primitive_type name : String) (x y z scale_x scale_y scale_z : ℚ)
    (color_r color_g color_b : Option ℚ) (add_physics : Bool) :
    List (String × PrimitiveTemplate) × Option CreateData :=
  match List.lookup primitive_type registry with
  | none => (registry, none)
  | some template =>
    let components := template.1
    let components :=
      if add_physics ∧ primitive_type ∉ ["empty", "light", "camera", "canvas"] then
        components ++ ["Rigidbody"]
      else components
    let color : Option (ℚ × ℚ × ℚ × ℚ) :=
      match color_r with
      | none => none
      | some r => some (r, color_g.getD r, color_b.getD r, 1)
    (registry,
     some { name := name, position := (x, y, z), scale := (scale_x, scale_y, scale_z),
            components := components, color := color })

/-- Claim C9 (confirmed).  With the physics flag set,
`create_primitive` appends exactly one "Rigidbody" to the template's
component list, and only for kinds outside empty/light/camera/canvas;
for "empty" the resulting component list stays empty for every caller
input even with physics requested; and no call ever changes the
registry that is passed in. -/
theorem create_primitive_physics_spec :
    (∀ registry ptype name x y z sx sy sz cr cg cb phys,
      (create_primitive registry ptype name x y z sx sy sz cr cg cb phys).1 = registry)
    ∧ (∀ registry ptype name x y z sx sy sz cr cg cb phys template,
        List.lookup ptype registry = some template →
        Option.map CreateData.components
            (create_primitive registry ptype name x y z sx sy sz cr cg cb phys).2
          = some (template.1 ++
              (if phys ∧ ptype ∉ ["empty", "light", "camera", "canvas"] then
                ["Rigidbody"] else [])))
    ∧ (∀ name x y z sx sy sz cr cg cb,
        Option.map CreateData.components
            (create_primitive PRIMITIVES "empty" name x y z sx sy sz cr cg cb true).2
          = some [])
    ∧ (∀ name x y z sx sy sz cr cg cb,
        Option.map CreateData.components
            (create_primitive PRIMITIVES "cube" name x y z sx sy sz cr cg cb true).2
          = some ["MeshFilter", "MeshRenderer", "BoxCollider", "Rigidbody"]) := by
  refine ⟨?_, ?_, ?_, ?_⟩
  · intro registry ptype name x y z sx sy sz cr cg cb phys
    unfold create_primitive
    cases List.lookup ptype registry <;> rfl
  · intro registry ptype name x y z sx sy sz cr cg cb phys template hl
    simp only [create_primitive, hl]
    split
    next h => simp
    next h => simp
  · intro name x y z sx sy sz cr cg cb
    rfl
  · intro name x y z sx sy sz cr cg cb
    rfl

/-- Witness for C9: the registry is returned unchanged and "Rigidbody"
is appended once for a concrete physics-enabled cube request. -/
theorem create_primitive_physics_spec_witness :
    (create_primitive PRIMITIVES "cube" "Box" 0 0 0 1 1 1 none none none true).1
        = PRIMITIVES
    ∧ Option.map CreateData.components
          (create_primitive PRIMITIVES "cube" "Box" 0 0 0 1 1 1 none none none true).2
        = some (["MeshFilter", "MeshRenderer", "BoxCollider"] ++
            (if (true : Bool) ∧ "cube" ∉ ["empty", "light", "camera", "canvas"] then
              ["Rigidbody"] else [])) :=
  ⟨create_primitive_physics_spec.1 PRIMITIVES "cube" "Box" 0 0 0 1 1 1 none none none true,
   create_primitive_physics_spec.2.1 PRIMITIVES "cube" "Box" 0 0 0 1 1 1 none none none
     true (["MeshFilter", "MeshRenderer", "BoxCollider"],
       "3D Cube with mesh and box collider") (by decide)⟩

/-- Claim C10 (confirmed).  In `create_primitive`, when `color_r` is
given but `color_g` or `color_b` is absent, each absent channel
defaults to the value of `color_r` (not to 0), so a red-only call
carries the gray color (r, r, r, 1.0); alpha is always 1.0; and with
no `color_r` the request carries no color at all. -/
theorem create_primitive_color_default_spec :
    ∀ registry ptype name x y z sx sy sz template,
      List.lookup ptype registry = some template →
      (∀ r cg cb,
        Option.map CreateData.color
            (create_primitive registry ptype name x y z sx sy sz (some r) cg cb false).2
          = some (some (r, cg.getD r, cb.getD r, 1)))
      ∧ (∀ r,
          Option.map CreateData.color
              (create_primitive registry ptype name x y z sx sy sz (some r) none none
                false).2
            = some (some (r, r, r, 1)))
      ∧ Option.map CreateData.color
            (create_primitive registry ptype name x y z sx sy sz none none none false).2
          = some none := by
  intro registry ptype name x y z sx sy sz template hl
  refine ⟨?_, ?_, ?_⟩
  · intro r cg cb
    simp [create_primitive, hl]
  · intro r
    simp [create_primitive, hl]
  · simp [create_primitive, hl]

/-- Witness for C10: a red-only cube request carries color
(0.9, 0.9, 0.9, 1). -/
theorem create_primitive_color_default_spec_witness :
    Option.map CreateData.color
        (create_primitive PRIMITIVES "cube" "Box" 0 0 0 1 1 1 (some 0.9) none none
          false).2
      = some (some (0.9, 0.9, 0.9, 1)) :=
  (create_primitive_color_default_spec PRIMITIVES "cube" "Box" 0 0 0 1 1 1
    (["MeshFilter", "MeshRenderer", "BoxCollider"], "3D Cube with mesh and box collider")
    (by decide)).2.1 0.9

end UnityBridge

namespace UnityBridge

/-! ## Server locator and command dispatcher

Network effects are passed in as oracles: a health oracle
`h : Nat → Option Nat` gives, for each probed port, the HTTP status of
the liveness probe (`none` = the probe raised, i.e. connection refused
or timed out at the 0.5s probe timeout), and each request attempt is
described by an `HttpResult`.  The module globals `UNITY_BASE_URL` and
`UNITY_SERVER_PORT` become the explicit `BridgeState`; the ghost field
`probedOK` records every port that has ever answered a liveness probe
with status 200, so that statements about "has answered a probe in the
past" can be made. -/

/-- Outcome of one HTTP request attempt as seen by the dispatchers:
a response with its status code and, when the body parses as JSON, the
parsed document; or one of the exception classes the source handles
(`requests.exceptions.Timeout`, `requests.exceptions.ConnectionError`,
any other exception).  A response whose body is not JSON stands for
the `json.JSONDecodeError` branch. -/
inductive HttpResult where
  | resp (stat : Nat) (body : Option String)
  | timeout
  | connError
  | exn
deriving DecidableEq

/-- Failure diagnostics printed by the dispatchers, one per failure
class: the request-timeout box, the cannot-connect box, the
invalid-JSON message, and the generic exception message. -/
inductive Diag where
  | timeoutBox
  | connFailBox
  | badJSON
  | generic
deriving DecidableEq

/-- Observable events of one dispatch: an outbound request attempt to
a base URL, a discovery probe of a port, the found-server line, the
status line, and a failure diagnostic. -/
inductive Ev where
  | attempt (base : String)
  | probe (port : Nat)
  | found (port : Nat)
  | statusLine (stat : Nat)
  | diag (d : Diag)
deriving DecidableEq

/-- The module constant `UNITY_DEFAULT_PORTS` (line 13). -/
def UNITY_DEFAULT_PORTS : List Nat :=
  [8080, 8081, 8082, 8083, 8084, 8085, 8086, 8087, 8088, 8089, 8090]

/-- Base URL for a port, as interpolated by the source. -/
def mkURL (port : Nat) : String :=
  "http://localhost:" ++ toString port

/-- The module globals: `UNITY_BASE_URL` and `UNITY_SERVER_PORT`
(lines 14-15), plus the ghost history `probedOK` of ports that have
answered a liveness probe with status 200. -/
structure BridgeState where
  url : String
  port : Nat
  probedOK : List Nat
deriving DecidableEq

/-- State of the globals at module load: the base URL is already set
to port 8080 before any probe has run (the source comment says it
"Will be updated by discover_server()"). -/
def bridgeInit : BridgeState :=
  { url := "http://localhost:8080", port := 8080, probedOK := [] }

/-- The probe loop of `discover_server` (lines 21-30) over a list of
candidate ports: probe each in order; the first port answering status
200 is returned and iteration stops; a non-200 status or a raised
probe moves to the next candidate.  Also returns the list of ports
probed, in order, for probe-count statements. -/
def probeLoop (h : Nat → Option Nat) : List Nat → Option Nat × List Nat
  | [] => (none, [])
  | p :: ps =>
    if h p = some 200 then (some p, [p])
    else
      let r := probeLoop h ps
      (r.1, p :: r.2)

/-- Embedding of `discover_server` (lines 17-31): scan
`UNITY_DEFAULT_PORTS` with the probe loop.  The first component is the
Python return value (the found port or `None`); the second is the
probe trace. -/
def discover_server (h : Nat → Option Nat) : Option Nat × List Nat :=
  probeLoop h UNITY_DEFAULT_PORTS

/-- Global-state effect of one `discover_server` call: on success the
base URL and port are overwritten with the found port (and the ghost
history records the successful probe); on failure the globals are left
as they were. -/
def discoverUpdate (st : BridgeState) (h : Nat → Option Nat) : BridgeState :=
  match (discover_server h).1 with
  | some p => { url := mkURL p, port := p, probedOK := st.probedOK ++ [p] }
  | none => st

/-- Shared control flow of `send_get_request` (lines 196-241) and
`send_post_request` (lines 243-289); the two Python functions are
line-for-line identical up to the HTTP verb, the request body and the
timeout constants (5s vs 10s), all of which are absorbed by the
transport oracle.  `r1` is the outcome of the first attempt against
the cached base URL; on `ConnectionError` exactly one
`discover_server` call runs and, if it finds a port, the request is
retried exactly once against the updated base URL with outcome `r2`;
any failure of that retry is caught by the inner bare `except` and
reported with the cannot-connect box.  Returns the value handed back
to the caller (`None` on every failure), the updated globals, and the
event trace. -/
def dispatch (st : BridgeState) (endpoint : String) (r1 : HttpResult)
    (h : Nat → Option Nat) (r2 : HttpResult) :
    Option String × BridgeState × List Ev :=
  match r1 with
  | .resp stat (some doc) =>
    (some doc, st, [.attempt (st.url ++ endpoint), .statusLine stat])
  | .resp stat none =>
    (none, st, [.attempt (st.url ++ endpoint), .statusLine stat, .diag .badJSON])
  | .timeout =>
    (none, st, [.attempt (st.url ++ endpoint), .diag .timeoutBox])
  | .exn =>
    (none, st, [.attempt (st.url ++ endpoint), .diag .generic])
  | .connError =>
    match discover_server h with
    | (none, probed) =>
      (none, st,
       [.attempt (st.url ++ endpoint)] ++ probed.map Ev.probe ++ [.diag .connFailBox])
    | (some p, probed) =>
      let st2 : BridgeState :=
        { url := mkURL p, port := p, probedOK := st.probedOK ++ [p] }
      let pre : List Ev :=
        [.attempt (st.url ++ endpoint)] ++ probed.map Ev.probe ++ [.found p]
      match r2 with
      | .resp stat (some doc) =>
        (some doc, st2, pre ++ [.attempt (st2.url ++ endpoint), .statusLine stat])
      | .resp stat none =>
        (none, st2,
         pre ++ [.attempt (st2.url ++ endpoint), .statusLine stat, .diag .connFailBox])
      | _ =>
        (none, st2, pre ++ [.attempt (st2.url ++ endpoint), .diag .connFailBox])

/-- Embedding of `send_get_request` (lines 196-241). -/
def send_get_request (st : BridgeState) (endpoint : String) (r1 : HttpResult)
    (h : Nat → Option Nat) (r2 : HttpResult) : Option String × BridgeState × List Ev :=
  dispatch st endpoint r1 h r2

/-- Embedding of `send_post_request` (lines 243-289); `data` is the
JSON body, which does not influence control flow. -/
def send_post_request (st : BridgeState) (endpoint : String) (data : String)
    (r1 : HttpResult) (h : Nat → Option Nat) (r2 : HttpResult) :
    Option String × BridgeState × List Ev :=
  dispatch st endpoint r1 h r2

/-- Embedding of `ensure_server_connection` (lines 33-63): a health
request against the cached base URL; any response at all counts as
reachable (the status code is not checked); on `ConnectionError` one
`discover_server` call runs and its success decides the result; on
`Timeout` the function reports failure without rediscovery.  Any other
exception would propagate (`none`). -/
def ensure_server_connection (st : BridgeState) (r : HttpResult)
    (h : Nat → Option Nat) : Option Bool × BridgeState :=
  match r with
  | .resp _ _ => (some true, st)
  | .connError =>
    match (discover_server h).1 with
    | some _ => (some true, discoverUpdate st h)
    | none => (some false, st)
  | .timeout => (some false, st)
  | .exn => (none, st)

/-- One observable operation of the bridge, as a transition on the
module globals: a direct `discover_server` call, a GET dispatch, a
POST dispatch, or an `ensure_server_connection` call, each under
arbitrary oracles. -/
inductive Step : BridgeState → BridgeState → Prop
  | discover (st : BridgeState) (h : Nat → Option Nat) :
      Step st (discoverUpdate st h)
  | get (st : BridgeState) (endpoint : String) (r1 : HttpResult)
      (h : Nat → Option Nat) (r2 : HttpResult) :
      Step st (send_get_request st endpoint r1 h r2).2.1
  | post (st : BridgeState) (endpoint data : String) (r1 : HttpResult)
      (h : Nat → Option Nat) (r2 : HttpResult) :
      Step st (send_post_request st endpoint data r1 h r2).2.1
  | ensure (st : BridgeState) (r : HttpResult) (h : Nat → Option Nat) :
      Step st (ensure_server_connection st r h).2

/-- States of the globals reachable from module load by any sequence
of bridge operations. -/
def Reachable (s : BridgeState) : Prop :=
  Relation.ReflTransGen Step bridgeInit s

/-- Number of outbound request attempts recorded in an event trace. -/
def numAttempts : List Ev → Nat
  | [] => 0
  | .attempt _ :: t => numAttempts t + 1
  | _ :: t => numAttempts t

/-- Ports probed during discovery, in order, as recorded in a trace. -/
def probePorts : List Ev → List Nat
  | [] => []
  | .probe p :: t => p :: probePorts t
  | _ :: t => probePorts t

/-- A request attempt outcome that does not deliver a parsed JSON
document: timeout, connection failure, other exception, or a response
whose body is not JSON. -/
def isFailure : HttpResult → Bool
  | .resp _ (some _) => false
  | _ => true

/-- Whether a whole dispatch ends in failure: the first attempt fails
and, in the connection-error case, either no server is rediscovered or
the single retry fails as well. -/
def dispatchFails (r1 : HttpResult) (h : Nat → Option Nat) (r2 : HttpResult) : Bool :=
  match r1 with
  | .resp _ (some _) => false
  | .connError =>
    match (discover_server h).1 with
    | some _ => isFailure r2
    | none => true
  | _ => true

end UnityBridge

namespace UnityBridge

/-! ## Facts about the locator and dispatcher -/

/-- Health oracle of the spec's port-8085 scenario: only port 8085
answers the liveness probe, with status 200. -/
def only8085 : Nat → Option Nat :=
  fun p => if p = 8085 then some 200 else none

/-- Health oracle for a fully unreachable server: every probe raises. -/
def noServer : Nat → Option Nat :=
  fun _ => none

lemma numAttempts_append (l r : List Ev) :
    numAttempts (l ++ r) = numAttempts l + numAttempts r := by
  induction l with
  | nil => simp [numAttempts]
  | cons e t ih => cases e <;> simp [numAttempts, ih] <;> omega

lemma numAttempts_map_probe (ps : List Nat) : numAttempts (ps.map Ev.probe) = 0 := by
  induction ps with
  | nil => rfl
  | cons p t ih => simp [numAttempts, ih]

lemma probePorts_append (l r : List Ev) :
    probePorts (l ++ r) = probePorts l ++ probePorts r := by
  induction l with
  | nil => simp [probePorts]
  | cons e t ih => cases e <;> simp [probePorts, ih]

lemma probePorts_map_probe (ps : List Nat) : probePorts (ps.map Ev.probe) = ps := by
  induction ps with
  | nil => rfl
  | cons p t ih => simp [probePorts, ih]

lemma probeLoop_fst (h : Nat → Option Nat) (ps : List Nat) :
    (probeLoop h ps).1 = ps.find? (fun p => decide (h p = some 200)) := by
  induction ps with
  | nil => rfl
  | cons p t ih =>
    by_cases hp : h p = some 200
    · simp [probeLoop, hp]
    · simp [probeLoop, hp, ih]

lemma dispatch_connError_spec (st : BridgeState) (endpoint : String)
    (h : Nat → Option Nat) (r2 : HttpResult) :
    numAttempts (dispatch st endpoint .connError h r2).2.2 ≤ 2
    ∧ probePorts (dispatch st endpoint .connError h r2).2.2 = (discover_server h).2
    ∧ (∀ p, (discover_server h).1 = some p →
        numAttempts (dispatch st endpoint .connError h r2).2.2 = 2
        ∧ Ev.attempt (mkURL p ++ endpoint) ∈ (dispatch st endpoint .connError h r2).2.2)
    ∧ ((discover_server h).1 = none →
        numAttempts (dispatch st endpoint .connError h r2).2.2 = 1
        ∧ (dispatch st endpoint .connError h r2).1 = none)
    ∧ (isFailure r2 = true → (dispatch st endpoint .connError h r2).1 = none) := by
  rcases hd : discover_server h with ⟨fnd, probed⟩
  cases fnd with
  | none =>
    refine ⟨?_, ?_, ?_, ?_, ?_⟩ <;>
      simp [dispatch, hd, numAttempts, numAttempts_append, numAttempts_map_probe,
        probePorts, probePorts_append, probePorts_map_probe]
  | some p =>
    cases r2 with
    | resp stat body =>
      cases body <;>
        refine ⟨?_, ?_, ?_, ?_, ?_⟩ <;>
          simp [dispatch, hd, numAttempts, numAttempts_append, numAttempts_map_probe,
            probePorts, probePorts_append, probePorts_map_probe, isFailure]
    | timeout =>
      refine ⟨?_, ?_, ?_, ?_, ?_⟩ <;>
        simp [dispatch, hd, numAttempts, numAttempts_append, numAttempts_map_probe,
          probePorts, probePorts_append, probePorts_map_probe, isFailure]
    | connError =>
      refine ⟨?_, ?_, ?_, ?_, ?_⟩ <;>
        simp [dispatch, hd, numAttempts, numAttempts_append, numAttempts_map_probe,
          probePorts, probePorts_append, probePorts_map_probe, isFailure]
    | exn =>
      refine ⟨?_, ?_, ?_, ?_, ?_⟩ <;>
        simp [dispatch, hd, numAttempts, numAttempts_append, numAttempts_map_probe,
          probePorts, probePorts_append, probePorts_map_probe, isFailure]

lemma dispatch_failure_reporting (st : BridgeState) (endpoint : String)
    (r1 : HttpResult) (h : Nat → Option Nat) (r2 : HttpResult) :
    ((dispatch st endpoint r1 h r2).1 = none ↔ dispatchFails r1 h r2 = true)
    ∧ ((dispatch st endpoint r1 h r2).1 = none →
        ∃ d, Ev.diag d ∈ (dispatch st endpoint r1 h r2).2.2)
    ∧ (r1 = .timeout →
        Ev.diag .timeoutBox ∈ (dispatch st endpoint r1 h r2).2.2
        ∧ Ev.diag .connFailBox ∉ (dispatch st endpoint r1 h r2).2.2)
    ∧ (r1 = .exn → Ev.diag .generic ∈ (dispatch st endpoint r1 h r2).2.2)
    ∧ (∀ stat, r1 = .resp stat none →
        Ev.diag .badJSON ∈ (dispatch st endpoint r1 h r2).2.2)
    ∧ (r1 = .connError → dispatchFails r1 h r2 = true →
        Ev.diag .connFailBox ∈ (dispatch st endpoint r1 h r2).2.2) := by
  cases r1 with
  | resp stat body =>
    cases body <;> simp [dispatch, dispatchFails]
  | timeout => simp [dispatch, dispatchFails]
  | exn => simp [dispatch, dispatchFails]
  | connError =>
    rcases hd : discover_server h with ⟨fnd, probed⟩
    cases fnd with
    | none => simp [dispatch, dispatchFails, hd]
    | some p =>
      cases r2 with
      | resp stat2 body2 =>
        cases body2 <;> simp [dispatch, dispatchFails, isFailure, hd]
      | timeout => simp [dispatch, dispatchFails, isFailure, hd]
      | connError => simp [dispatch, dispatchFails, isFailure, hd]
      | exn => simp [dispatch, dispatchFails, isFailure, hd]

/-- Invariant tying the endpoint globals to the probe history: either
the globals still hold their unprobed initial default, or the cached
port has answered a liveness probe with status 200 in the past and the
base URL points at that port. -/
def EndpointInvariant (s : BridgeState) : Prop :=
  s = bridgeInit ∨ (s.url = mkURL s.port ∧ s.port ∈ s.probedOK)

lemma discoverUpdate_preserves {s : BridgeState} (h : Nat → Option Nat)
    (hs : EndpointInvariant s) : EndpointInvariant (discoverUpdate s h) := by
  unfold discoverUpdate
  cases hfd : (discover_server h).1 with
  | none => exact hs
  | some p => exact Or.inr ⟨rfl, by simp⟩

lemma step_preserves_invariant {s t : BridgeState} (hst : Step s t)
    (hs : EndpointInvariant s) : EndpointInvariant t := by
  cases hst with
  | discover h => exact discoverUpdate_preserves h hs
  | get endpoint r1 h r2 =>
    cases r1 with
    | resp stat body => cases body <;> exact hs
    | timeout => exact hs
    | exn => exact hs
    | connError =>
      show EndpointInvariant (dispatch s endpoint .connError h r2).2.1
      rcases hd : discover_server h with ⟨fnd, probed⟩
      cases fnd with
      | none => simp only [dispatch, hd]; exact hs
      | some p =>
        cases r2 with
        | resp stat2 body2 =>
          cases body2 <;> (simp only [dispatch, hd]; exact Or.inr ⟨rfl, by simp⟩)
        | timeout => simp only [dispatch, hd]; exact Or.inr ⟨rfl, by simp⟩
        | connError => simp only [dispatch, hd]; exact Or.inr ⟨rfl, by simp⟩
        | exn => simp only [dispatch, hd]; exact Or.inr ⟨rfl, by simp⟩
  | post endpoint data r1 h r2 =>
    cases r1 with
    | resp stat body => cases body <;> exact hs
    | timeout => exact hs
    | exn => exact hs
    | connError =>
      show EndpointInvariant (dispatch s endpoint .connError h r2).2.1
      rcases hd : discover_server h with ⟨fnd, probed⟩
      cases fnd with
      | none => simp only [dispatch, hd]; exact hs
      | some p =>
        cases r2 with
        | resp stat2 body2 =>
          cases body2 <;> (simp only [dispatch, hd]; exact Or.inr ⟨rfl, by simp⟩)
        | timeout => simp only [dispatch, hd]; exact Or.inr ⟨rfl, by simp⟩
        | connError => simp only [dispatch, hd]; exact Or.inr ⟨rfl, by simp⟩
        | exn => simp only [dispatch, hd]; exact Or.inr ⟨rfl, by simp⟩
  | ensure r h =>
    cases r with
    | resp stat body => exact hs
    | timeout => exact hs
    | exn => exact hs
    | connError =>
      show EndpointInvariant (ensure_server_connection s .connError h).2
      cases hfd : (discover_server h).1 with
      | none => simp only [ensure_server_connection, hfd]; exact hs
      | some p =>
        simp only [ensure_server_connection, hfd]
        exact discoverUpdate_preserves h hs

/-- Claim C2, counterexample.  At program start (a reachable state:
module load) the Endpoint globals are already set to
http://localhost:8080 while the probe history is empty: the endpoint
is not "unset at start", and it is present without ever having
answered a liveness probe. -/
theorem endpoint_preset_at_start :
    Reachable bridgeInit ∧ bridgeInit.url = "http://localhost:8080"
    ∧ bridgeInit.port = 8080 ∧ bridgeInit.probedOK = [] :=
  ⟨Relation.ReflTransGen.refl, rfl, rfl, rfl⟩

/-- Claim C2 (corrected).  In every reachable state of the globals,
either the endpoint still equals the initial unprobed default
(http://localhost:8080), or the cached port has answered a liveness
probe with status 200 at some point in the past; in other words the
endpoint value is only ever changed by a successful probe inside
`discover_server`. -/
theorem endpoint_changes_only_by_successful_probe :
    ∀ s, Reachable s → EndpointInvariant s := by
  intro s hr
  induction hr with
  | refl => exact Or.inl rfl
  | tail hstep hlast ih => exact step_preserves_invariant hlast ih

/-- Witness for C2 at the initial state. -/
theorem endpoint_changes_only_by_successful_probe_witness :
    EndpointInvariant bridgeInit :=
  endpoint_changes_only_by_successful_probe bridgeInit Relation.ReflTransGen.refl

/-- Claim C3 (confirmed).  For GET and POST dispatches alike, a
connection failure on the first attempt triggers exactly one
re-discovery cycle (the probe trace is exactly one `discover_server`
scan); when a port is found the request is retried exactly once
against the new base URL (2 attempts in total, and never more than 2);
when no port is found there is no retry (1 attempt) and the call
fails; and if the single retry fails in any way, the call reports
terminal failure (`None`). -/
theorem dispatch_connError_single_rediscovery_retry :
    ∀ (st : BridgeState) (endpoint data : String) (h : Nat → Option Nat)
      (r2 : HttpResult),
      (numAttempts (send_get_request st endpoint .connError h r2).2.2 ≤ 2
        ∧ probePorts (send_get_request st endpoint .connError h r2).2.2
            = (discover_server h).2
        ∧ (∀ p, (discover_server h).1 = some p →
            numAttempts (send_get_request st endpoint .connError h r2).2.2 = 2
            ∧ Ev.attempt (mkURL p ++ endpoint)
                ∈ (send_get_request st endpoint .connError h r2).2.2)
        ∧ ((discover_server h).1 = none →
            numAttempts (send_get_request st endpoint .connError h r2).2.2 = 1
            ∧ (send_get_request st endpoint .connError h r2).1 = none)
        ∧ (isFailure r2 = true → (send_get_request st endpoint .connError h r2).1 = none))
      ∧ (numAttempts (send_post_request st endpoint data .connError h r2).2.2 ≤ 2
        ∧ probePorts (send_post_request st endpoint data .connError h r2).2.2
            = (discover_server h).2
        ∧ (∀ p, (discover_server h).1 = some p →
            numAttempts (send_post_request st endpoint data .connError h r2).2.2 = 2
            ∧ Ev.attempt (mkURL p ++ endpoint)
                ∈ (send_post_request st endpoint data .connError h r2).2.2)
        ∧ ((discover_server h).1 = none →
            numAttempts (send_post_request st endpoint data .connError h r2).2.2 = 1
            ∧ (send_post_request st endpoint data .connError h r2).1 = none)
        ∧ (isFailure r2 = true →
            (send_post_request st endpoint data .connError h r2).1 = none)) :=
  fun st endpoint data h r2 =>
    ⟨dispatch_connError_spec st endpoint h r2, dispatch_connError_spec st endpoint h r2⟩

/-- Witness for C3: with only port 8085 alive and a retry that also
fails, a GET dispatch makes exactly 2 attempts and returns `None`. -/
theorem dispatch_connError_single_rediscovery_retry_witness :
    numAttempts (send_get_request bridgeInit "/unity/scene/info" .connError only8085
        .connError).2.2 = 2
    ∧ (send_get_request bridgeInit "/unity/scene/info" .connError only8085
        .connError).1 = none :=
  ⟨((dispatch_connError_single_rediscovery_retry bridgeInit "/unity/scene/info" ""
      only8085 .connError).1.2.2.1 8085 (by decide)).1,
   (dispatch_connError_single_rediscovery_retry bridgeInit "/unity/scene/info" ""
      only8085 .connError).1.2.2.2.2 (by decide)⟩

/-- Claim C4 (confirmed).  For GET and POST dispatches alike, a
transport timeout returns `None` immediately with the timeout
diagnostic: the event trace shows one request attempt, zero discovery
probes and no retry, and the timeout diagnostic is distinct from the
connection-failure diagnostic. -/
theorem dispatch_timeout_no_rediscovery_no_retry :
    ∀ (st : BridgeState) (endpoint data : String) (h : Nat → Option Nat)
      (r2 : HttpResult),
      send_get_request st endpoint .timeout h r2
          = (none, st, [.attempt (st.url ++ endpoint), .diag .timeoutBox])
      ∧ send_post_request st endpoint data .timeout h r2
          = (none, st, [.attempt (st.url ++ endpoint), .diag .timeoutBox])
      ∧ numAttempts [Ev.attempt (st.url ++ endpoint), Ev.diag Diag.timeoutBox] = 1
      ∧ probePorts [Ev.attempt (st.url ++ endpoint), Ev.diag Diag.timeoutBox] = []
      ∧ Diag.timeoutBox ≠ Diag.connFailBox :=
  fun st endpoint data h r2 => ⟨rfl, rfl, rfl, rfl, by decide⟩

/-- Witness for C4 at a concrete timed-out GET dispatch. -/
theorem dispatch_timeout_no_rediscovery_no_retry_witness :
    send_get_request bridgeInit "/unity/status" .timeout only8085 .connError
      = (none, bridgeInit,
         [.attempt (bridgeInit.url ++ "/unity/status"), .diag .timeoutBox]) :=
  (dispatch_timeout_no_rediscovery_no_retry bridgeInit "/unity/status" "" only8085
    .connError).1

/-- Claim C5, counterexample.  Two different failure kinds — a timeout
and a connection failure with discovery exhausted — hand the caller
the identical value `None`: the returned result does not discriminate
the failure kinds (only the printed diagnostics do). -/
theorem dispatch_failure_kinds_collapse_to_none :
    (send_get_request bridgeInit "/unity/scene/info" .timeout noServer
        (.resp 200 (some "ok"))).1 = none
    ∧ (send_get_request bridgeInit "/unity/scene/info" .connError noServer
        (.resp 200 (some "ok"))).1 = none
    ∧ HttpResult.timeout ≠ HttpResult.connError :=
  ⟨rfl, by decide, by decide⟩

/-- Claim C5 (corrected).  For GET and POST dispatches alike, a
dispatch returns `None` exactly when it fails (no failure is silently
swallowed into a success value, and every outcome is returned — the
dispatcher is a total function, so no failure can terminate the host
process); every failing dispatch prints at least one diagnostic, and
the diagnostics discriminate the kinds (timeout box without the
connect box on timeout, generic message on other exceptions, invalid
JSON message on malformed responses, connect box on connection
failure); the returned value itself, however, is the same `None` for
every kind. -/
theorem dispatch_failures_reported_not_thrown :
    ∀ (st : BridgeState) (endpoint data : String) (r1 : HttpResult)
      (h : Nat → Option Nat) (r2 : HttpResult),
      (((send_get_request st endpoint r1 h r2).1 = none ↔ dispatchFails r1 h r2 = true)
        ∧ ((send_get_request st endpoint r1 h r2).1 = none →
            ∃ d, Ev.diag d ∈ (send_get_request st endpoint r1 h r2).2.2)
        ∧ (r1 = .timeout →
            Ev.diag .timeoutBox ∈ (send_get_request st endpoint r1 h r2).2.2
            ∧ Ev.diag .connFailBox ∉ (send_get_request st endpoint r1 h r2).2.2)
        ∧ (r1 = .exn → Ev.diag .generic ∈ (send_get_request st endpoint r1 h r2).2.2)
        ∧ (∀ stat, r1 = .resp stat none →
            Ev.diag .badJSON ∈ (send_get_request st endpoint r1 h r2).2.2)
        ∧ (r1 = .connError → dispatchFails r1 h r2 = true →
            Ev.diag .connFailBox ∈ (send_get_request st endpoint r1 h r2).2.2))
      ∧ (((send_post_request st endpoint data r1 h r2).1 = none
            ↔ dispatchFails r1 h r2 = true)
        ∧ ((send_post_request st endpoint data r1 h r2).1 = none →
            ∃ d, Ev.diag d ∈ (send_post_request st endpoint data r1 h r2).2.2)
        ∧ (r1 = .timeout →
            Ev.diag .timeoutBox ∈ (send_post_request st endpoint data r1 h r2).2.2
            ∧ Ev.diag .connFailBox ∉ (send_post_request st endpoint data r1 h r2).2.2)
        ∧ (r1 = .exn →
            Ev.diag .generic ∈ (send_post_request st endpoint data r1 h r2).2.2)
        ∧ (∀ stat, r1 = .resp stat none →
            Ev.diag .badJSON ∈ (send_post_request st endpoint data r1 h r2).2.2)
        ∧ (r1 = .connError → dispatchFails r1 h r2 = true →
            Ev.diag .connFailBox ∈ (send_post_request st endpoint data r1 h r2).2.2)) :=
  fun st endpoint data r1 h r2 =>
    ⟨dispatch_failure_reporting st endpoint r1 h r2,
     dispatch_failure_reporting st endpoint r1 h r2⟩

/-- Witness for C5: a concrete timed-out GET dispatch prints the
timeout box and not the connect box. -/
theorem dispatch_failures_reported_not_thrown_witness :
    Ev.diag Diag.timeoutBox
        ∈ (send_get_request bridgeInit "/unity/status" .timeout noServer .exn).2.2
    ∧ Ev.diag Diag.connFailBox
        ∉ (send_get_request bridgeInit "/unity/status" .timeout noServer .exn).2.2 :=
  (dispatch_failures_reported_not_thrown bridgeInit "/unity/status" "" .timeout noServer
    .exn).1.2.2.1 rfl

/-- Claim C6 (confirmed).  `discover_server` scans exactly the 11
consecutive ports 8080..8090 in ascending order; its result is the
first port whose probe answers status 200 (first-match-wins; a found
port did answer 200 and lies in the range); when no candidate answers
it returns `None`; in the spec's scenario where only 8085 answers, the
result is 8085, the probe trace is exactly 8080..8085, and no port
above 8085 is probed; a successful scan installs the found port as the
active endpoint. -/
theorem discover_server_first_match_spec :
    UNITY_DEFAULT_PORTS
        = [8080, 8081, 8082, 8083, 8084, 8085, 8086, 8087, 8088, 8089, 8090]
    ∧ (∀ h, (discover_server h).1
        = UNITY_DEFAULT_PORTS.find? (fun p => decide (h p = some 200)))
    ∧ (∀ h p, (discover_server h).1 = some p →
        h p = some 200 ∧ p ∈ UNITY_DEFAULT_PORTS)
    ∧ (∀ h, (∀ p ∈ UNITY_DEFAULT_PORTS, h p ≠ some 200) → (discover_server h).1 = none)
    ∧ (discover_server only8085).1 = some 8085
    ∧ (discover_server only8085).2 = [8080, 8081, 8082, 8083, 8084, 8085]
    ∧ (∀ q ∈ (discover_server only8085).2, q ≤ 8085)
    ∧ (∀ st h p, (discover_server h).1 = some p →
        (discoverUpdate st h).port = p ∧ (discoverUpdate st h).url = mkURL p) := by
  refine ⟨rfl, ?_, ?_, ?_, by decide, by decide, by decide, ?_⟩
  · intro h
    exact probeLoop_fst h UNITY_DEFAULT_PORTS
  · intro h p hp
    rw [discover_server, probeLoop_fst] at hp
    constructor
    · have := List.find?_some hp
      simpa using this
    · exact List.mem_of_find?_eq_some hp
  · intro h hnone
    rw [discover_server, probeLoop_fst]
    rw [List.find?_eq_none]
    intro p hmem
    simpa using hnone p hmem
  · intro st h p hp
    unfold discoverUpdate
    rw [hp]
    exact ⟨rfl, rfl⟩

/-- Witness for C6: in the port-8085 scenario the found port answered
status 200 and is inside the scan range. -/
theorem discover_server_first_match_spec_witness :
    only8085 8085 = some 200 ∧ 8085 ∈ UNITY_DEFAULT_PORTS :=
  discover_server_first_match_spec.2.2.1 only8085 8085 (by decide)

end UnityBridge
